import Mathlib

/-!
Shallow embedding of the Trip Planner service (`src/app.py`) and proofs about
its deterministic core: the resilient fetch client `_get_json` with its retry
policy, the provider adapters (`forecast`, `ticketmaster_events`), the
itinerary synthesizer `plan_blocks`, the packing-list builder
`build_packing_list`, the optional polish step `maybe_polish`, and the
`plan_trip` handler's itinerary assembly.

Modelling conventions:
- Python `float` temperatures / precipitation are modelled as `ℚ`.
- Python `datetime.date` values are modelled as days-since-epoch (`Nat`);
  `date.isoformat()` is modelled by `isoDate`, the standard civil-from-days
  calendar conversion rendered as `YYYY-MM-DD`.
- Python `Optional[T]` is `Option T`; an f-string interpolation of an
  `Optional[str]` renders `None` as the literal string "None" (`pyOptStr`).
- Network interaction is modelled by passing the upstream responses in as
  explicit arguments; where a claim is about whether a call happens at all,
  the function also returns the number of network calls it makes.
- Exceptions are modelled with `Except` / `Option` (an out-of-range Python
  list index becomes `none`).
-/

/-- Pydantic model `WeatherDaily` from app.py. -/
structure WeatherDaily where
  date : String
  temp_day_c : ℚ
  temp_night_c : ℚ
  condition : String
  precipitation_mm : ℚ
deriving Repr, DecidableEq

/-- Pydantic model `POI` from app.py. -/
structure POI where
  name : String
  summary : Option String := none
  distance_km : Option ℚ := none
  url : Option String := none
deriving Repr, DecidableEq

/-- Pydantic model `Event` from app.py. -/
structure Event where
  title : String
  start_local : String
  venue : Option String := none
  url : Option String := none
deriving Repr, DecidableEq

/-- Pydantic model `DayPlan` from app.py. -/
structure DayPlan where
  day : Nat
  date : String
  morning : String
  afternoon : String
  evening : String
  meals : List String
deriving Repr, DecidableEq

/-- `build_packing_list` from app.py (lines 277-296).  The Python function
returns a dict literal with the four keys in this order; we model it as an
association list.  The conditional scan is guarded by `if forecast_days:`
exactly as in the source. -/
def build_packing_list (forecast_days : List WeatherDaily) : List (String × List String) :=
  let essentials := ["Passport/ID", "Wallet", "Phone + charger", "Meds", "Reusable bottle"]
  let clothing := ["Walking shoes", "Socks/underwear", "Tops/bottoms"]
  let toiletries := ["Toothbrush/toothpaste", "Deodorant", "Sunscreen"]
  let electronics := ["Power adapter", "Power bank"]
  let hot := !forecast_days.isEmpty && forecast_days.any (fun d => decide (27 ≤ d.temp_day_c))
  let cold := !forecast_days.isEmpty && forecast_days.any (fun d => decide (d.temp_day_c ≤ 10))
  let wet := !forecast_days.isEmpty && forecast_days.any (fun d => decide (2 ≤ d.precipitation_mm))
  let clothing := clothing ++ (if hot then ["Hat & sunglasses; light fabrics"] else [])
  let clothing := clothing ++ (if cold then ["Warm layer / light jacket"] else [])
  let essentials := essentials ++ (if wet then ["Compact umbrella / rain jacket"] else [])
  [("essentials", essentials), ("clothing", clothing),
   ("toiletries", toiletries), ("electronics", electronics)]

/-- The item list of one category of a packing list (Python `packing[key]`). -/
def packingCategory (packing : List (String × List String)) (key : String) : List String :=
  ((packing.lookup key).getD [])

lemma build_packing_list_eq (fd : List WeatherDaily) :
    build_packing_list fd =
      [("essentials", ["Passport/ID", "Wallet", "Phone + charger", "Meds", "Reusable bottle"]
          ++ (if fd.any (fun d => decide (2 ≤ d.precipitation_mm))
              then ["Compact umbrella / rain jacket"] else [])),
       ("clothing", ["Walking shoes", "Socks/underwear", "Tops/bottoms"]
          ++ (if fd.any (fun d => decide (27 ≤ d.temp_day_c))
              then ["Hat & sunglasses; light fabrics"] else [])
          ++ (if fd.any (fun d => decide (d.temp_day_c ≤ 10))
              then ["Warm layer / light jacket"] else [])),
       ("toiletries", ["Toothbrush/toothpaste", "Deodorant", "Sunscreen"]),
       ("electronics", ["Power adapter", "Power bank"])] := by
  cases fd <;> simp [build_packing_list]

/-- C7: when called with an empty weather sequence, `build_packing_list`
returns exactly the four base categories (essentials, clothing, toiletries,
electronics) with exactly their fixed base items and no conditional items. -/
theorem build_packing_list_empty :
    build_packing_list [] =
      [("essentials", ["Passport/ID", "Wallet", "Phone + charger", "Meds", "Reusable bottle"]),
       ("clothing", ["Walking shoes", "Socks/underwear", "Tops/bottoms"]),
       ("toiletries", ["Toothbrush/toothpaste", "Deodorant", "Sunscreen"]),
       ("electronics", ["Power adapter", "Power bank"])] := by
  rfl

/-- C2: for every weather sequence, `build_packing_list` puts the heat item in
clothing iff some day has day-temperature ≥ 27 °C, the cold item iff some day
has day-temperature ≤ 10 °C, and the rain item in essentials iff some day has
precipitation ≥ 2.0 mm — the whole sequence is scanned — and each conditional
item occurs exactly once when triggered and zero times otherwise, no matter
how many days trigger it. -/
theorem build_packing_list_conditionals (fd : List WeatherDaily) :
    ((packingCategory (build_packing_list fd) "clothing").count
        "Hat & sunglasses; light fabrics" = if ∃ d ∈ fd, 27 ≤ d.temp_day_c then 1 else 0)
    ∧ ((packingCategory (build_packing_list fd) "clothing").count
        "Warm layer / light jacket" = if ∃ d ∈ fd, d.temp_day_c ≤ 10 then 1 else 0)
    ∧ ((packingCategory (build_packing_list fd) "essentials").count
        "Compact umbrella / rain jacket" = if ∃ d ∈ fd, 2 ≤ d.precipitation_mm then 1 else 0) := by
  have hhot : (∃ d ∈ fd, 27 ≤ d.temp_day_c)
      ↔ fd.any (fun d => decide (27 ≤ d.temp_day_c)) = true := by simp
  have hcold : (∃ d ∈ fd, d.temp_day_c ≤ 10)
      ↔ fd.any (fun d => decide (d.temp_day_c ≤ 10)) = true := by simp
  have hwet : (∃ d ∈ fd, 2 ≤ d.precipitation_mm)
      ↔ fd.any (fun d => decide (2 ≤ d.precipitation_mm)) = true := by simp
  rw [build_packing_list_eq]
  rcases hh : fd.any (fun d => decide (27 ≤ d.temp_day_c)) <;>
  rcases hc : fd.any (fun d => decide (d.temp_day_c ≤ 10)) <;>
  rcases hw : fd.any (fun d => decide (2 ≤ d.precipitation_mm)) <;>
  simp [packingCategory, hh, hc, hw, hhot, hcold, hwet, List.lookup]

/-- C8: for every weather sequence, `build_packing_list` returns a mapping
whose keys are exactly essentials, clothing, toiletries, electronics (in that
order); in every category the fixed base items form a prefix of the item list
in their fixed order, and conditional items are only ever appended after the
base items of clothing or essentials (toiletries and electronics are never
extended). -/
theorem build_packing_list_shape (fd : List WeatherDaily) :
    (build_packing_list fd).map Prod.fst
        = ["essentials", "clothing", "toiletries", "electronics"]
    ∧ ∃ extraE extraC, build_packing_list fd =
        [("essentials",
            ["Passport/ID", "Wallet", "Phone + charger", "Meds", "Reusable bottle"] ++ extraE),
         ("clothing", ["Walking shoes", "Socks/underwear", "Tops/bottoms"] ++ extraC),
         ("toiletries", ["Toothbrush/toothpaste", "Deodorant", "Sunscreen"]),
         ("electronics", ["Power adapter", "Power bank"])]
      ∧ extraE.Sublist ["Compact umbrella / rain jacket"]
      ∧ extraC.Sublist ["Hat & sunglasses; light fabrics", "Warm layer / light jacket"] := by
  rw [build_packing_list_eq]
  refine ⟨by simp,
    (if fd.any (fun d => decide (2 ≤ d.precipitation_mm))
        then ["Compact umbrella / rain jacket"] else []),
    ((if fd.any (fun d => decide (27 ≤ d.temp_day_c))
        then ["Hat & sunglasses; light fabrics"] else [])
      ++ (if fd.any (fun d => decide (d.temp_day_c ≤ 10))
        then ["Warm layer / light jacket"] else [])),
    by simp, ?_, ?_⟩
  · rcases fd.any (fun d => decide (2 ≤ d.precipitation_mm)) <;> decide
  · rcases fd.any (fun d => decide (27 ≤ d.temp_day_c)) <;>
    rcases fd.any (fun d => decide (d.temp_day_c ≤ 10)) <;>
    decide

/-- Python f-string interpolation of an `Optional[str]`: `None` renders as
the literal text "None". -/
def pyOptStr : Option String → String
  | some s => s
  | none => "None"

/-- `plan_blocks` from app.py (lines 261-275).  `pois` is the list of POI
dicts (`p.model_dump()`), `events` the list of `Event` records.  Python's
`events[day_idx] if day_idx < len(events) else None` is `events[day_idx]?`;
a pydantic model instance is always truthy, so `if evening_ev` takes the
event branch exactly when the index was in range.  The in-range list indexing
`pois[k % max(1, len(pois))]` is modelled with `getD` (the guards ensure the
index is in range, so the default is never read). -/
def plan_blocks (day_idx : Nat) (date_str : String) (pois : List POI)
    (events : List Event) : DayPlan :=
  let poi_m := if pois.isEmpty then "Neighborhood walk"
    else (pois.getD ((day_idx * 3 + 0) % max 1 pois.length) { name := "" }).name
  let poi_a := if pois.length > 1
    then (pois.getD ((day_idx * 3 + 1) % max 1 pois.length) { name := "" }).name
    else "Museum or gallery"
  let evening_ev := events[day_idx]?
  let eve_text := match evening_ev with
    | some ev => "Attend: " ++ ev.title ++ " @ " ++ pyOptStr ev.venue
    | none => if pois.length > 2
        then (pois.getD ((day_idx * 3 + 2) % max 1 pois.length) { name := "" }).name
        else "Food market & riverfront"
  { day := day_idx + 1
    date := date_str
    morning := "Explore: " ++ poi_m
    afternoon := "Visit: " ++ poi_a
    evening := eve_text
    meals := ["Local bakery breakfast", "Regional specialty lunch", "Well-reviewed dinner spot"] }

/-- C3: the morning slot uses the POI at index `(i*3+0) % max 1 P` when
`P > 0` and the "Neighborhood walk" placeholder otherwise; the afternoon slot
uses the POI at index `(i*3+1) % max 1 P` when `P > 1` and the
"Museum or gallery" placeholder otherwise; the evening slot uses the event at
list index `i` (no modulo wrap) when `i` is in range of the events list,
otherwise the POI at index `(i*3+2) % max 1 P` when `P > 2`, otherwise the
"Food market & riverfront" placeholder. -/
theorem plan_blocks_slots (i : Nat) (date : String) (pois : List POI)
    (events : List Event) :
    ((plan_blocks i date pois events).morning = "Explore: " ++
      (if h : 0 < pois.length
        then (pois.get ⟨(i * 3 + 0) % max 1 pois.length, by
          have h2 : max 1 pois.length = pois.length := by omega
          rw [h2]; exact Nat.mod_lt _ h⟩).name
        else "Neighborhood walk"))
    ∧ ((plan_blocks i date pois events).afternoon = "Visit: " ++
      (if h : 1 < pois.length
        then (pois.get ⟨(i * 3 + 1) % max 1 pois.length, by
          have h2 : max 1 pois.length = pois.length := by omega
          rw [h2]; exact Nat.mod_lt _ (by omega)⟩).name
        else "Museum or gallery"))
    ∧ ((plan_blocks i date pois events).evening =
      (match events[i]? with
        | some ev => "Attend: " ++ ev.title ++ " @ " ++ pyOptStr ev.venue
        | none =>
          if h : 2 < pois.length
          then (pois.get ⟨(i * 3 + 2) % max 1 pois.length, by
            have h2 : max 1 pois.length = pois.length := by omega
            rw [h2]; exact Nat.mod_lt _ (by omega)⟩).name
          else "Food market & riverfront")) := by
  refine ⟨?_, ?_, ?_⟩
  · simp only [plan_blocks]
    by_cases h : 0 < pois.length
    · have hne : ¬ pois.isEmpty = true := by cases pois <;> simp_all
      have hb : (i * 3 + 0) % max 1 pois.length < pois.length := by
        have h2 : max 1 pois.length = pois.length := by omega
        rw [h2]; exact Nat.mod_lt _ h
      rw [if_neg hne, dif_pos h, List.getD_eq_getElem _ _ hb, List.get_eq_getElem]
    · have he : pois = [] := by cases pois <;> simp_all
      subst he; simp
  · simp only [plan_blocks]
    by_cases h : 1 < pois.length
    · have hb : (i * 3 + 1) % max 1 pois.length < pois.length := by
        have h2 : max 1 pois.length = pois.length := by omega
        rw [h2]; exact Nat.mod_lt _ (by omega)
      rw [if_pos h, dif_pos h, List.getD_eq_getElem _ _ hb, List.get_eq_getElem]
    · rw [if_neg h, dif_neg h]
  · simp only [plan_blocks]
    rcases hev : events[i]? with _ | ev
    · by_cases h : 2 < pois.length
      · have hb : (i * 3 + 2) % max 1 pois.length < pois.length := by
          have h2 : max 1 pois.length = pois.length := by omega
          rw [h2]; exact Nat.mod_lt _ (by omega)
        simp only [if_pos h, dif_pos h, List.getD_eq_getElem _ _ hb, List.get_eq_getElem]
      · simp only [if_neg h, dif_neg h]
    · rfl

/-- C10: when an event exists at the day's list index but its venue is absent
(`None`), the evening slot still takes the event branch and renders the
literal text "Attend: {title} @ None" rather than falling back to a POI or a
placeholder. -/
theorem plan_blocks_evening_none_venue (i : Nat) (date : String)
    (pois : List POI) (events : List Event) (ev : Event)
    (hev : events[i]? = some ev) (hv : ev.venue = none) :
    (plan_blocks i date pois events).evening = "Attend: " ++ ev.title ++ " @ None" := by
  simp only [plan_blocks, hev, hv, pyOptStr]
  apply String.ext
  simp [String.data_append]

/-- Witness for `plan_blocks_evening_none_venue`: a one-event list whose
event has no venue. -/
theorem plan_blocks_evening_none_venue_witness :
    (plan_blocks 0 "2026-10-12" []
      [{ title := "Jazz night", start_local := "2026-10-12" }]).evening
      = "Attend: Jazz night @ None" :=
  plan_blocks_evening_none_venue 0 "2026-10-12" []
    [{ title := "Jazz night", start_local := "2026-10-12" }]
    { title := "Jazz night", start_local := "2026-10-12" } rfl rfl

/-- One raw event from the Ticketmaster response JSON, as read by
`ticketmaster_events`: `name`, `url`, `dates.start.localDate`,
`dates.start.dateTime`, and the name fields of `_embedded.venues`. -/
structure RawTMEvent where
  name : String
  url : Option String
  localDate : Option String
  dateTime : Option String
  venues : List (Option String)
deriving Repr, DecidableEq

/-- Normalization of one raw Ticketmaster event (loop body of
`ticketmaster_events`, app.py lines 236-245): `start_local` falls back from
`localDate` to `dateTime` to `""`; `venue` is the first venue's name when a
venue exists. -/
def normalizeTMEvent (e : RawTMEvent) : Event :=
  { title := e.name
    start_local := (e.localDate.or e.dateTime).getD ""
    venue := match e.venues with
      | [] => none
      | v :: _ => v
    url := e.url }

/-- `ticketmaster_events` from app.py (lines 219-246).  `hasKey` models
`settings.TICKETMASTER_API_KEY` being configured; `upstream` is the
`_embedded.events` array of the provider response.  The second component
counts the network calls made (`_get_json` invocations). -/
def ticketmaster_events (hasKey : Bool) (upstream : List RawTMEvent) :
    List Event × Nat :=
  if !hasKey then ([], 0)
  else (upstream.map normalizeTMEvent, 1)

/-- C6: when the events provider API key is not configured, the events
adapter returns an empty sequence while making zero network calls (and no
error: the function is total); this result is the same event list as a
configured provider matching zero events, so the synthesizer (`plan_blocks`)
produces identical day plans in both cases. -/
theorem ticketmaster_events_no_key (upstream : List RawTMEvent) :
    ticketmaster_events false upstream = ([], 0)
    ∧ ticketmaster_events true [] = ([], 1)
    ∧ (ticketmaster_events false upstream).1 = (ticketmaster_events true []).1
    ∧ ∀ (i : Nat) (date : String) (pois : List POI),
        plan_blocks i date pois (ticketmaster_events false upstream).1
          = plan_blocks i date pois (ticketmaster_events true []).1 := by
  refine ⟨rfl, rfl, rfl, fun i date pois => rfl⟩

/-- `maybe_polish` from app.py (lines 300-311).  `hasKey` models
`settings.OPENAI_API_KEY` being set, `llmAvailable` models the optional LLM
imports having succeeded (`ChatOpenAI is not None`), and `llmCall` is the
outcome of the LLM interaction inside the `try` block: `.ok s` when
`llm.invoke(...)` returns message content `s`, `.error ()` when anything in
the block raises.  On success Python returns `msg.content.strip()`, i.e. the
trimmed content. -/
def maybe_polish (hasKey llmAvailable : Bool) (llmCall : Except Unit String)
    (text : String) : String :=
  if !hasKey || !llmAvailable then text
  else
    match llmCall with
    | .ok s => s.trim
    | .error _ => text

/-- C5: the polish step is a total function (it never raises); when no LLM
key is configured or the LLM libraries are unavailable it returns the input
text unchanged, and when the LLM call fails internally it also returns the
original input text unchanged. -/
theorem maybe_polish_never_fails (hasKey llmAvailable : Bool)
    (llmCall : Except Unit String) (text : String) :
    (hasKey = false ∨ llmAvailable = false →
      maybe_polish hasKey llmAvailable llmCall text = text)
    ∧ (llmCall = .error () →
      maybe_polish hasKey llmAvailable llmCall text = text) := by
  constructor
  · rintro (h | h) <;> simp [maybe_polish, h]
  · rintro rfl
    rcases hasKey <;> rcases llmAvailable <;> simp [maybe_polish]

/-- Witness for `maybe_polish_never_fails`: with a key configured and the
library available, a failing LLM call returns the input unchanged; with no
key, the input is also returned unchanged. -/
theorem maybe_polish_never_fails_witness :
    maybe_polish true true (.error ()) "hello itinerary" = "hello itinerary"
    ∧ maybe_polish false true (.ok "polished") "hello itinerary" = "hello itinerary" :=
  ⟨(maybe_polish_never_fails true true (.error ()) "hello itinerary").2 rfl,
   (maybe_polish_never_fails false true (.ok "polished") "hello itinerary").1 (Or.inl rfl)⟩

/-- `code_to_text` from app.py (lines 154-165): maps an Open-Meteo weather
code to a fixed textual condition, defaulting to "Mixed". -/
def code_to_text (c : Int) : String :=
  if c ∈ ([0] : List Int) then "Clear"
  else if c ∈ ([1, 2, 3] : List Int) then "Partly cloudy"
  else if c ∈ ([45, 48] : List Int) then "Fog"
  else if c ∈ ([51, 53, 55, 56, 57] : List Int) then "Drizzle"
  else if c ∈ ([61, 63, 65, 66, 67] : List Int) then "Rain"
  else if c ∈ ([71, 73, 75, 77] : List Int) then "Snow"
  else if c ∈ ([80, 81, 82] : List Int) then "Rain showers"
  else if c ∈ ([85, 86] : List Int) then "Snow showers"
  else if c ∈ ([95, 96, 99] : List Int) then "Thunderstorm"
  else "Mixed"

/-- Loop of the `forecast` adapter (app.py lines 166-174):
`for i, d in enumerate(dates[:days])` with the running index `i`, reading
`maxs[i]`, `mins[i]`, `precs[i]`, `codes[i]`.  A Python `IndexError` (an
index beyond the end of one of the four metric arrays) is modelled as
`none`. -/
def forecastGo (maxs mins precs : List ℚ) (codes : List Int) :
    Nat → List String → Option (List WeatherDaily)
  | _, [] => some []
  | i, d :: ds => do
    let mx ← maxs[i]?
    let mn ← mins[i]?
    let pr ← precs[i]?
    let c ← codes[i]?
    let rest ← forecastGo maxs mins precs codes (i + 1) ds
    pure ({ date := d, temp_day_c := mx, temp_night_c := mn,
            condition := code_to_text c, precipitation_mm := pr } :: rest)

/-- The `forecast` adapter's normalization (app.py lines 140-175), given the
arrays extracted from the upstream `daily` object: the per-day loop over
`dates[:days]`. -/
def forecast (dates : List String) (maxs mins precs : List ℚ)
    (codes : List Int) (days : Nat) : Option (List WeatherDaily) :=
  forecastGo maxs mins precs codes 0 (dates.take days)

lemma forecastGo_total (maxs mins precs : List ℚ) (codes : List Int) :
    ∀ (ds : List String) (i : Nat),
      i + ds.length ≤ maxs.length → i + ds.length ≤ mins.length →
      i + ds.length ≤ precs.length → i + ds.length ≤ codes.length →
      ∃ out, forecastGo maxs mins precs codes i ds = some out
        ∧ out.length = ds.length
  | [], i => by intro _ _ _ _; exact ⟨[], rfl, rfl⟩
  | d :: ds, i => by
    intro h1 h2 h3 h4
    have bmx : i < maxs.length := by simp at h1; omega
    have bmn : i < mins.length := by simp at h2; omega
    have bpr : i < precs.length := by simp at h3; omega
    have bc : i < codes.length := by simp at h4; omega
    obtain ⟨out, hout, hlen⟩ := forecastGo_total maxs mins precs codes ds (i + 1)
      (by simp at h1; omega) (by simp at h2; omega)
      (by simp at h3; omega) (by simp at h4; omega)
    refine ⟨{ date := d, temp_day_c := maxs.get ⟨i, bmx⟩,
              temp_night_c := mins.get ⟨i, bmn⟩,
              condition := code_to_text (codes.get ⟨i, bc⟩),
              precipitation_mm := precs.get ⟨i, bpr⟩ } :: out, ?_, by simp [hlen]⟩
    simp only [forecastGo, List.getElem?_eq_getElem bmx, List.getElem?_eq_getElem bmn,
      List.getElem?_eq_getElem bpr, List.getElem?_eq_getElem bc, hout,
      Option.bind_eq_bind, Option.some_bind, List.get_eq_getElem]
    rfl

lemma forecastGo_short (maxs mins precs : List ℚ) (codes : List Int) :
    ∀ (ds : List String) (i : Nat), ds ≠ [] →
      (maxs.length < i + ds.length ∨ mins.length < i + ds.length
        ∨ precs.length < i + ds.length ∨ codes.length < i + ds.length) →
      forecastGo maxs mins precs codes i ds = none
  | [], _ => by intro hne _; exact absurd rfl hne
  | d :: ds, i => by
    intro _ h
    by_cases hmx : i < maxs.length
    case neg =>
      simp [forecastGo, List.getElem?_eq_none_iff.mpr (by omega : maxs.length ≤ i)]
    by_cases hmn : i < mins.length
    case neg =>
      simp [forecastGo, List.getElem?_eq_getElem hmx,
        List.getElem?_eq_none_iff.mpr (by omega : mins.length ≤ i)]
    by_cases hpr : i < precs.length
    case neg =>
      simp [forecastGo, List.getElem?_eq_getElem hmx, List.getElem?_eq_getElem hmn,
        List.getElem?_eq_none_iff.mpr (by omega : precs.length ≤ i)]
    by_cases hc : i < codes.length
    case neg =>
      simp [forecastGo, List.getElem?_eq_getElem hmx, List.getElem?_eq_getElem hmn,
        List.getElem?_eq_getElem hpr,
        List.getElem?_eq_none_iff.mpr (by omega : codes.length ≤ i)]
    cases ds with
    | nil => exfalso; simp at h; omega
    | cons d2 ds2 =>
      have hrec := forecastGo_short maxs mins precs codes (d2 :: ds2) (i + 1)
        (by simp) (by simp at h ⊢; omega)
      rw [forecastGo, List.getElem?_eq_getElem hmx, List.getElem?_eq_getElem hmn,
        List.getElem?_eq_getElem hpr, List.getElem?_eq_getElem hc]
      simp only [Option.bind_eq_bind, Option.some_bind]
      rw [hrec]
      rfl

/-- C9: the forecast normalization indexes the four metric arrays by the
position of each entry of the (truncated) date array.  It returns a sequence
of length `min days (length of dates)` precisely under the precondition that
each metric array has at least that many entries; if any array is shorter,
normalization fails with an index error (modelled as `none`) instead of
propagating a shorter sequence. -/
theorem forecast_indexing (dates : List String) (maxs mins precs : List ℚ)
    (codes : List Int) (days : Nat) :
    (min days dates.length ≤ maxs.length → min days dates.length ≤ mins.length →
      min days dates.length ≤ precs.length → min days dates.length ≤ codes.length →
      ∃ out, forecast dates maxs mins precs codes days = some out
        ∧ out.length = min days dates.length)
    ∧ ((maxs.length < min days dates.length ∨ mins.length < min days dates.length
        ∨ precs.length < min days dates.length ∨ codes.length < min days dates.length)
      → forecast dates maxs mins precs codes days = none) := by
  have htake : (dates.take days).length = min days dates.length := List.length_take _ _
  constructor
  · intro h1 h2 h3 h4
    obtain ⟨out, hout, hlen⟩ := forecastGo_total maxs mins precs codes (dates.take days) 0
      (by omega) (by omega) (by omega) (by omega)
    exact ⟨out, hout, by omega⟩
  · intro h
    have hpos : 0 < (dates.take days).length := by omega
    exact forecastGo_short maxs mins precs codes (dates.take days) 0
      (List.length_pos.mp hpos) (by omega)

/-- Witness for `forecast_indexing`: with one requested day and metric arrays
of length 1 normalization succeeds with one entry; with two requested days
and dates but a max-temperature array of length 1 it fails with an index
error (`none`). -/
theorem forecast_indexing_witness :
    (∃ out, forecast ["2026-10-12"] [20] [10] [0] [61] 1 = some out ∧ out.length = 1)
    ∧ forecast ["2026-10-12", "2026-10-13"] [20] [10, 9] [0, 1] [61, 3] 2 = none := by
  constructor
  · have h := (forecast_indexing ["2026-10-12"] [20] [10] [0] [61] 1).1
      (by decide) (by decide) (by decide) (by decide)
    simpa using h
  · exact (forecast_indexing ["2026-10-12", "2026-10-13"] [20] [10, 9] [0, 1] [61, 3] 2).2
      (by decide)

/-- Zero-padded decimal rendering (Python's fixed-width date fields). -/
def padNum (w n : Nat) : String :=
  String.mk (List.replicate (w - (toString n).length) '0') ++ toString n

/-- Days-since-epoch (1970-01-01) to (year, month, day), the standard civil
calendar conversion underlying Python's `datetime.date`. -/
def civilFromDays (z0 : Nat) : Nat × Nat × Nat :=
  let z := z0 + 719468
  let era := z / 146097
  let doe := z % 146097
  let yoe := (doe - doe / 1460 + doe / 36524 - doe / 146096) / 365
  let y := yoe + era * 400
  let doy := doe - (365 * yoe + yoe / 4 - yoe / 100)
  let mp := (5 * doy + 2) / 153
  let d := doy - (153 * mp + 2) / 5 + 1
  let m := if mp < 10 then mp + 3 else mp - 9
  (if m ≤ 2 then y + 1 else y, m, d)

/-- Python `date.isoformat()`: the YYYY-MM-DD rendering of a
days-since-epoch value. -/
def isoDate (epochDay : Nat) : String :=
  let ymd := civilFromDays epochDay
  padNum 4 ymd.1 ++ "-" ++ padNum 2 ymd.2.1 ++ "-" ++ padNum 2 ymd.2.2

/-- The `dates` list of `plan_trip` (app.py line 324):
`[(today + timedelta(days=i)).isoformat() for i in range(days)]`, with
`today` the UTC date as days-since-epoch. -/
def plan_trip_dates (today days : Nat) : List String :=
  (List.range days).map (fun i => isoDate (today + i))

/-- The itinerary-building loop of `plan_trip` (app.py lines 341-343):
`for i, d in enumerate(dates): daily.append(plan_blocks(i, d, pois, events))`. -/
def plan_trip_daily (dates : List String) (pois : List POI)
    (events : List Event) : List DayPlan :=
  dates.enum.map (fun p => plan_blocks p.1 p.2 pois events)

/-- Response assembly of one day plan (app.py lines 356-363): `maybe_polish`
is applied to the text fields, while `day` and `date` are passed through. -/
def polishDayPlan (polish : String → String) (dp : DayPlan) : DayPlan :=
  { day := dp.day
    date := dp.date
    morning := polish dp.morning
    afternoon := polish dp.afternoon
    evening := polish dp.evening
    meals := dp.meals.map polish }

/-- The `daily_itinerary` field of the `plan_trip` response (app.py lines
319-365), parameterized by the ambient polish function and by the fetched
POIs and events. -/
def plan_trip_itinerary (polish : String → String) (today days : Nat)
    (pois : List POI) (events : List Event) : List DayPlan :=
  (plan_trip_daily (plan_trip_dates today days) pois events).map
    (polishDayPlan polish)

/-- C1: for every valid request with days in [1, 21], the returned
`daily_itinerary` has exactly `days` entries; entry `i` (0-based) has `day`
field `i + 1` — so the day numbers are 1..days consecutively — and `date`
field the ISO rendering of `today + i`, i.e. the ISO dates of consecutive
calendar days starting at today's UTC date. -/
theorem plan_trip_itinerary_days (polish : String → String) (today days : Nat)
    (pois : List POI) (events : List Event) (h1 : 1 ≤ days) (h2 : days ≤ 21) :
    (plan_trip_itinerary polish today days pois events).length = days
    ∧ ∀ i, i < days →
      ((plan_trip_itinerary polish today days pois events)[i]?).map DayPlan.day
          = some (i + 1)
      ∧ ((plan_trip_itinerary polish today days pois events)[i]?).map DayPlan.date
          = some (isoDate (today + i)) := by
  constructor
  · simp [plan_trip_itinerary, plan_trip_daily, plan_trip_dates]
  · intro i hi
    constructor <;>
      simp [plan_trip_itinerary, plan_trip_daily, plan_trip_dates,
        polishDayPlan, plan_blocks, List.getElem?_map, List.enum_map,
        List.getElem?_range hi]

/-- Witness for `plan_trip_itinerary_days`: a 3-day trip starting on
2026-10-12 (epoch day 20738) has 3 entries and its last entry is dated
2026-10-14. -/
theorem plan_trip_itinerary_days_witness :
    (plan_trip_itinerary (fun s => s) 20738 3 [] []).length = 3
    ∧ ((plan_trip_itinerary (fun s => s) 20738 3 [] [])[2]?).map DayPlan.date
        = some "2026-10-14" := by
  have h := plan_trip_itinerary_days (fun s => s) 20738 3 [] [] (by decide) (by decide)
  refine ⟨h.1, ?_⟩
  rw [(h.2 2 (by decide)).2]
  rfl

/-- One attempt's raw HTTP outcome as seen by `_get_json`: either a response
with a status code and JSON body (modelled as a string), or an
httpx transport error (timeout / connection failure) carrying no response. -/
inductive HttpResult where
  | response (status : Nat) (body : String)
  | transportError
deriving Repr, DecidableEq

/-- The errors `_get_json` can raise: `httpStatusError s` is an
`httpx.HTTPStatusError` re-raised unchanged (only happens for 404), and
`externalError` is the app's `ExternalError` transient class (the Python
message string is irrelevant to control flow and omitted). -/
inductive FetchError where
  | httpStatusError (status : Nat)
  | externalError
deriving Repr, DecidableEq

/-- One attempt of `_get_json` (app.py lines 55-66), without the retry
decorator: a 5xx response raises `ExternalError`; `raise_for_status` raises
`httpx.HTTPStatusError` for any non-2xx status, which the `except` block
re-raises unchanged when the status is 404 and wraps into `ExternalError`
otherwise; a transport error (no response, so
`getattr(e.response, "status_code", None)` is `None`) is also wrapped into
`ExternalError`. -/
def _get_json_once (r : HttpResult) : Except FetchError String :=
  match r with
  | .transportError => .error .externalError
  | .response status body =>
    if 500 ≤ status then .error .externalError
    else if 200 ≤ status ∧ status < 300 then .ok body
    else if status = 404 then .error (.httpStatusError 404)
    else .error .externalError

/-- The tenacity retry loop around `_get_json_once` (app.py lines 49-54):
`stop_after_attempt(n)` with `retry_if_exception_type(ExternalError)` and
`reraise=True`.  `oracle k` is the raw outcome of attempt number `k`; the
first argument is the remaining attempt budget (`settings.MAX_RETRIES`, 3 by
default, at the top call).  Only `externalError` triggers another attempt;
when the budget is exhausted the last error is re-raised. -/
def _get_json (oracle : Nat → HttpResult) : Nat → Nat → Except FetchError String
  | 0, _ => .error .externalError
  | fuel + 1, i =>
    match _get_json_once (oracle i) with
    | .ok v => .ok v
    | .error .externalError =>
        if fuel = 0 then .error .externalError
        else _get_json oracle fuel (i + 1)
    | .error e => .error e

/-- C4 (counterexample): a 403 response — a 4xx other than 404 — is NOT
surfaced to the caller unchanged: `_get_json_once` reclassifies it as the
transient `externalError`, and the retry loop then retries it — with a 403
on the first attempt and a 200 on the second, the overall call succeeds,
which would be impossible if non-404 4xx failures were never retried. -/
theorem get_json_4xx_retried_counterexample :
    _get_json_once (.response 403 "forbidden") = .error .externalError
    ∧ _get_json
        (fun n => if n = 0 then .response 403 "forbidden" else .response 200 "ok")
        3 0 = .ok "ok" :=
  ⟨rfl, rfl⟩

/-- C4 (amended): for every response with a 4xx status other than 404, the
failure is reclassified as the transient `ExternalError` and is retried by
the retry policy (the run with at least one attempt of budget left continues
with the next attempt); only a 404 is surfaced to the caller unchanged as an
`httpx.HTTPStatusError` and is never retried (the loop stops immediately,
whatever budget remains). -/
theorem get_json_non404_4xx_amended (status : Nat) (body : String)
    (h4 : 400 ≤ status) (h5 : status < 500) (hn : status ≠ 404) :
    _get_json_once (.response status body) = .error .externalError
    ∧ (∀ (oracle : Nat → HttpResult) (i fuel : Nat),
        oracle i = .response status body →
        _get_json oracle (fuel + 2) i = _get_json oracle (fuel + 1) (i + 1))
    ∧ (∀ (oracle : Nat → HttpResult) (i fuel : Nat) (b2 : String),
        oracle i = .response 404 b2 →
        _get_json oracle (fuel + 1) i = .error (.httpStatusError 404)) := by
  have c1 : ¬ 500 ≤ status := by omega
  have c2 : ¬ (200 ≤ status ∧ status < 300) := by omega
  have once : _get_json_once (.response status body) = .error .externalError := by
    simp [_get_json_once, c1, c2, hn]
  refine ⟨once, ?_, ?_⟩
  · intro oracle i fuel hor
    have h1 : _get_json_once (oracle i) = .error .externalError := by rw [hor]; exact once
    simp [_get_json, h1]
  · intro oracle i fuel b2 hor
    have h1 : _get_json_once (oracle i) = .error (.httpStatusError 404) := by
      rw [hor]; rfl
    simp [_get_json, h1]

/-- Witness for `get_json_non404_4xx_amended`: status 403 is reclassified as
transient, and a 404 on the first attempt ends a 3-attempt run immediately
with the `httpx.HTTPStatusError` surfaced unchanged. -/
theorem get_json_non404_4xx_amended_witness :
    _get_json_once (.response 403 "x") = .error .externalError
    ∧ _get_json (fun _ => .response 404 "nf") 3 0 = .error (.httpStatusError 404) := by
  have h := get_json_non404_4xx_amended 403 "x" (by decide) (by decide) (by decide)
  exact ⟨h.1, h.2.2 (fun _ => .response 404 "nf") 0 2 "nf" rfl⟩
